import Mathlib

/-!
Verification of the Polymarket Watcher signal-detection engine.

The Python sources are shallowly embedded: prices, liquidities and
thresholds are rationals (the source's float constants are exact decimal
fractions), ISO timestamps are rational hour/second offsets, DynamoDB
tables are keyed maps or lists threaded explicitly through the functions
that read and write them.
-/

namespace PolymarketWatcher

/-! ### Configuration constants (serverless/common/config.py) -/

/-- `MAX_POSTS_PER_DAY = 100` (config.py). -/
def MAX_POSTS_PER_DAY : ℕ := 100

/-- `MIN_POST_INTERVAL = 15 * 60` seconds (config.py). -/
def MIN_POST_INTERVAL : ℚ := 15 * 60

/-- `LOW_LIQUIDITY_THRESHOLD = 5000` (config.py). -/
def LOW_LIQUIDITY_THRESHOLD : ℚ := 5000

/-- `MEDIUM_LIQUIDITY_THRESHOLD = 100000` (config.py). -/
def MEDIUM_LIQUIDITY_THRESHOLD : ℚ := 100000

/-- `HIGH_LIQUIDITY_THRESHOLD = 500000` (config.py). -/
def HIGH_LIQUIDITY_THRESHOLD : ℚ := 500000

/-- `VOLATILITY_THRESHOLDS` (config.py): entries `(min_liquidity, change_threshold)`
in source order. -/
def VOLATILITY_THRESHOLDS : List (ℚ × ℚ) :=
  [(1000000, 5/100), (500000, 7/100), (100000, 10/100),
   (50000, 15/100), (10000, 20/100), (0, 25/100)]

/-- `SIGNAL_STRENGTH` (config.py): entries `(name, min, max)` in the dict's
insertion order, which is the iteration order of `.items()`. -/
def SIGNAL_STRENGTH : List (String × ℚ × ℚ) :=
  [("WEAK", 3/100, 8/100), ("MODERATE", 8/100, 15/100),
   ("STRONG", 15/100, 25/100), ("VERY_STRONG", 25/100, 1)]

/-! ### Utility functions (serverless/common/utils.py) -/

/-- `get_liquidity_tier` (utils.py): bucket a liquidity into
`very_low`/`low`/`medium`/`high`. -/
def get_liquidity_tier (liquidity : ℚ) : String :=
  if liquidity < LOW_LIQUIDITY_THRESHOLD then "very_low"
  else if liquidity < MEDIUM_LIQUIDITY_THRESHOLD then "low"
  else if liquidity < HIGH_LIQUIDITY_THRESHOLD then "medium"
  else "high"

/-- `calculate_price_change` (utils.py): relative absolute change, 0 when the
previous price is 0. -/
def calculate_price_change (current_price previous_price : ℚ) : ℚ :=
  if previous_price = 0 then 0
  else |current_price - previous_price| / previous_price

/-- `get_volatility_threshold` (utils.py): return the `change_threshold` of the
first `VOLATILITY_THRESHOLDS` entry whose `min_liquidity` the liquidity meets;
the loop's fallback returns the last entry's threshold. -/
def get_volatility_threshold (liquidity : ℚ) : ℚ :=
  match VOLATILITY_THRESHOLDS.find? (fun t => decide (t.1 ≤ liquidity)) with
  | some t => t.2
  | none => 25/100

/-- Modelled from the spec: `calculate_significant_price_change` is imported by
`signal_analyzer.py` from `common.utils` but is defined nowhere under the
sources; spec §4.1 gives its rule.  Given current and reference prices and a
minimum absolute change, compute absolute change `|Δ|` and relative change
`|Δ|/reference`; if `reference < 0.10` significance is absolute change ≥ the
minimum and the reported change is the absolute change, otherwise significance
is absolute change ≥ the minimum OR relative change ≥ 0.15 and the reported
change is the larger of the two.  Returns (significant, change value, path). -/
def calculate_significant_price_change (current_price reference : ℚ)
    (min_absolute_change : ℚ) : Bool × ℚ × String :=
  let abs_change := |current_price - reference|
  if reference < 10/100 then
    (decide (min_absolute_change ≤ abs_change), abs_change, "absolute")
  else
    let rel_change := abs_change / reference
    (decide (min_absolute_change ≤ abs_change) || decide (15/100 ≤ rel_change),
      max abs_change rel_change, "max")

/-! ### Volatility / momentum analyzer (serverless/signal_analyzer/signal_analyzer.py) -/

/-- One row of the historical-prices table for one (market, outcome), as consumed
by the analyzer after the DynamoDB query: its ISO timestamp is embedded as a
rational number of hours, its price as a rational. -/
structure PricePoint where
  ts : ℚ
  price : ℚ
deriving DecidableEq, Repr

/-- The successive relative price changes computed by `calculate_volatility`
(signal_analyzer.py lines 119-122): `|p_i - p_(i-1)| / p_(i-1)`, and 0 when the
previous price is not positive. -/
def price_changes (prices : List PricePoint) : List ℚ :=
  (prices.zip prices.tail).map (fun p =>
    if 0 < p.1.price then |p.2.price - p.1.price| / p.1.price else 0)

/-- `calculate_volatility` (signal_analyzer.py) returns `statistics.stdev` of the
successive relative changes, and 0 for fewer than 2 prices or fewer than 2
changes.  The standard deviation is irrational-valued, so this embedding
carries its square (the sample variance, `Σ (c_i - mean)² / (n - 1)`); every
use in the sources compares the standard deviation against the nonnegative
constant 0.1, which is equivalent to comparing this value against 0.1². -/
def calculate_volatility_sq (prices : List PricePoint) : ℚ :=
  if prices.length < 2 then 0
  else
    let cs := price_changes prices
    if cs.length < 2 then 0
    else
      let m := cs.sum / cs.length
      (cs.map (fun c => (c - m)^2)).sum / (cs.length - 1 : ℕ)

/-- The loop body of `calculate_price_momentum` (signal_analyzer.py lines
152-162) for one window, hoisted out for reuse: the per-hour relative price
change between the window's start and end points, collected only when the
elapsed time and the start price are positive. -/
def momentum_rate (s e : PricePoint) : Option ℚ :=
  let time_diff := e.ts - s.ts
  if 0 < time_diff ∧ 0 < s.price then
    some (((e.price - s.price) / s.price) / time_diff)
  else none

/-- The window at index `i` of the `calculate_price_momentum` loop, hoisted
out for reuse: `start_time, start_price = price_data[i]` and
`end_time, end_price = price_data[i + window_size]`, combined by
`momentum_rate`; indexing is total (`none` out of bounds), which the loop's
`range(len(price_data) - window_size)` never exercises. -/
def momentum_window (prices : List PricePoint) (window_size i : ℕ) : Option ℚ :=
  match prices[i]?, prices[i + window_size]? with
  | some s, some e => momentum_rate s e
  | _, _ => none

/-- `calculate_price_momentum` (signal_analyzer.py): 0 for fewer than
`window_size` points; otherwise collect `momentum_window` over each `i` in
`range(len - window_size)` and return the average of the collected values, 0
if none were collected. -/
def calculate_price_momentum (prices : List PricePoint) (window_size : ℕ) : ℚ :=
  if prices.length < window_size then 0
  else
    let momentum_values := (List.range (prices.length - window_size)).filterMap
      (momentum_window prices window_size)
    if momentum_values.isEmpty then 0
    else momentum_values.sum / momentum_values.length

/-- `get_signal_strength_category` (signal_analyzer.py): scan the
`SIGNAL_STRENGTH` entries in order and return the first whose half-open band
`min ≤ change < max` contains the change; default to VERY_STRONG when no band
matches. -/
def get_signal_strength_category (price_change : ℚ) : String :=
  match SIGNAL_STRENGTH.find?
      (fun e => decide (e.2.1 ≤ price_change) && decide (price_change < e.2.2)) with
  | some e => e.1
  | none => "VERY_STRONG"

/-- One row of the markets table as read by the signal analyzer.  The
`market_end_date` attribute is embedded as the signed number of whole days to
resolution that `calculate_confidence_score` derives from it (`none` when the
attribute is absent); the per-window DynamoDB history queries of
`get_historical_prices_for_time_windows` are embedded as the association list
`historyWindows` from window length in hours to the sorted price rows. -/
structure Market where
  id : String
  question : String
  current_price : ℚ
  tracked_outcome : Option String
  liquidity : ℚ
  volume24hr : ℚ
  categories : List String
  days_to_resolution : Option ℤ
  historyWindows : List (ℕ × List PricePoint)
deriving DecidableEq, Repr

/-- `calculate_confidence_score` (signal_analyzer.py): weighted sum of
magnitude (price change ÷ 0.5, capped at 1), 24h volume (÷ 1,000,000, capped),
liquidity (÷ 1,000,000, capped), historical accuracy, and time-to-resolution
urgency (0.5 when no end date, else `1 - days/30` clamped to [0,1]), with
weights 0.3 / 0.2 / 0.15 / 0.25 / 0.1 (`CONFIDENCE_WEIGHTS`), capped at 1. -/
def calculate_confidence_score (market : Market) (price_change : ℚ)
    (historical_accuracy : ℚ) : ℚ :=
  let normalized_magnitude := min (price_change / (5/10)) 1
  let normalized_volume := min (market.volume24hr / 1000000) 1
  let normalized_liquidity := min (market.liquidity / 1000000) 1
  let time_to_resolution :=
    match market.days_to_resolution with
    | none => 5/10
    | some d => max 0 (min 1 (1 - (d : ℚ)/30))
  let score :=
    (3/10) * normalized_magnitude +
    (2/10) * normalized_volume +
    (15/100) * normalized_liquidity +
    (25/100) * historical_accuracy +
    (1/10) * time_to_resolution
  min score 1

/-- Helper for `determine_signal_type`: the generator expression
`all(price_values[i] <= price_values[i+1] ...)` over consecutive pairs. -/
def pairwise_le (l : List ℚ) : Bool :=
  (l.zip l.tail).all (fun p => decide (p.1 ≤ p.2))

/-- Helper for `determine_signal_type`: the generator expression
`all(price_values[i] >= price_values[i+1] ...)` over consecutive pairs. -/
def pairwise_ge (l : List ℚ) : Bool :=
  (l.zip l.tail).all (fun p => decide (p.2 ≤ p.1))

/-- `determine_signal_type` (signal_analyzer.py): priority cascade over a
market's window history.  `None` for empty history; PRICE_JUMP / PRICE_DROP
when the 0.05-minimum significance test passes and the reported change is at
least 0.15; else VOLATILITY_SPIKE when the volatility is at least 0.1 (embedded
as variance ≥ 0.1²); else SUSTAINED_TREND when at least 5 points exist, the
series is monotone, and the looser 0.03-minimum significance test passes in the
same direction; else `None`. -/
def determine_signal_type (current_price : ℚ) (historical_prices : List PricePoint)
    (volatility_sq : ℚ) : Option String :=
  match historical_prices with
  | [] => none
  | p0 :: _ =>
    let oldest_price := p0.price
    let r := calculate_significant_price_change current_price oldest_price (5/100)
    let is_significant := r.1
    let change_value := r.2.1
    if is_significant ∧ oldest_price < current_price ∧ 15/100 ≤ change_value then
      some "PRICE_JUMP"
    else if is_significant ∧ current_price < oldest_price ∧ 15/100 ≤ change_value then
      some "PRICE_DROP"
    else if (1/10)^2 ≤ volatility_sq then
      some "VOLATILITY_SPIKE"
    else if 5 ≤ historical_prices.length then
      let price_values := historical_prices.map (·.price)
      let increasing := pairwise_le price_values
      let decreasing := pairwise_ge price_values
      let rt := calculate_significant_price_change current_price oldest_price (3/100)
      if rt.1 ∧ increasing ∧ oldest_price < current_price then some "SUSTAINED_TREND"
      else if rt.1 ∧ decreasing ∧ current_price < oldest_price then some "SUSTAINED_TREND"
      else none
    else none

/-- `predict_outcome_from_signal` (signal_analyzer.py): for a market tracking
"Yes", a jump (or an upward trend above 0.5) predicts "Yes" and a drop (or a
downward trend below 0.5) predicts "No"; otherwise the tracked outcome is
predicted only when the current price exceeds 0.7, else no prediction. -/
def predict_outcome_from_signal (signal_type : String) (current_price : ℚ)
    (market : Market) : Option String :=
  if market.tracked_outcome = some "Yes" ∧
      (signal_type = "PRICE_JUMP" ∨
        (signal_type = "SUSTAINED_TREND" ∧ 1/2 < current_price)) then
    some "Yes"
  else if market.tracked_outcome = some "Yes" ∧
      (signal_type = "PRICE_DROP" ∨
        (signal_type = "SUSTAINED_TREND" ∧ current_price < 1/2)) then
    some "No"
  else if 7/10 < current_price then market.tracked_outcome
  else none

/-! ### Threshold store and signal store -/

/-- One row of the thresholds table, keyed outside by (category, liquidity
tier): the `base_threshold` attribute and the `accuracy` entry of its
`performance_metrics` map (the only metric the sources ever rewrite). -/
structure ThresholdRec where
  base_threshold : ℚ
  accuracy : ℚ
deriving DecidableEq, Repr

/-- The thresholds DynamoDB table: a map from the composite key
(category, liquidity_tier) to the stored record, `none` where no row exists.
`put_item` on an existing key overwrites, so there is one row per key. -/
def ThresholdStore := String × String → Option ThresholdRec

/-- One row of the signals table, keyed by (market_id, signal_id), with the
attributes written by `save_signal_to_dynamodb` (signal_analyzer.py) and the
three attributes later added by `update_signal_with_resolution`
(resolution_tracker.py), embedded as `Option` fields that start out `none`.
The `category` field models the singular `category` attribute that
`get_historical_signal_accuracy` filters on: no writer in the sources ever
sets it (signals carry only the plural `categories` list), so it is `none`
for every signal the system writes.  `uuid` signal ids are embedded as a
counter; the volatility attribute carries the squared value (see
`calculate_volatility_sq`); `detection_timestamp` is a rational. -/
structure SignalRec where
  market_id : String
  signal_id : ℕ
  question : String
  signal_type : String
  signal_strength : String
  time_window : ℕ
  current_price : ℚ
  previous_price : ℚ
  price_change : ℚ
  volatility_sq : ℚ
  momentum : ℚ
  threshold_used : ℚ
  confidence_score : ℚ
  liquidity : ℚ
  liquidity_tier : String
  categories : List String
  tracked_outcome : Option String
  predicted_outcome : Option String
  category : Option String
  actual_outcome : Option String
  was_correct : Option Bool
  resolution_date : Option ℚ
deriving DecidableEq, Repr

/-- `get_historical_signal_accuracy` (signal_analyzer.py), called with both a
category and a liquidity tier: scan the signals table for rows whose
`actual_outcome` attribute exists and whose `category` and `liquidity_tier`
attributes equal the arguments, and return the fraction of them with a truthy
`was_correct`; 0.5 when no row matches. -/
def get_historical_signal_accuracy (signals : List SignalRec)
    (category liquidity_tier : String) : ℚ :=
  let matching := signals.filter (fun s =>
    s.actual_outcome.isSome && s.category == some category &&
      s.liquidity_tier == liquidity_tier)
  if matching.isEmpty then 1/2
  else ((matching.filter (fun s => s.was_correct == some true)).length : ℚ) /
    matching.length

/-- `get_adaptive_threshold` (signal_analyzer.py): look up the market's
(category, tier) rows; average their `base_threshold`s when any exist, else
fall back to `get_volatility_threshold` on the market's liquidity. -/
def get_adaptive_threshold (store : ThresholdStore) (market : Market) : ℚ :=
  let tier := get_liquidity_tier market.liquidity
  let category_thresholds :=
    market.categories.filterMap (fun c => (store (c, tier)).map (·.base_threshold))
  if category_thresholds.isEmpty then get_volatility_threshold market.liquidity
  else category_thresholds.sum / category_thresholds.length

/-- The scalar adjustment of `update_threshold_based_on_performance`
(signal_analyzer.py lines 440-448): raise by 10% when accuracy < 0.4, lower
by 5% when accuracy > 0.7, else keep, then clamp to [0.03, 0.3] via
`max(0.03, min(0.3, new_threshold))`. -/
def adjust_threshold (current_threshold accuracy : ℚ) : ℚ :=
  let new_threshold :=
    if accuracy < 4/10 then current_threshold * (11/10)
    else if 7/10 < accuracy then current_threshold * (95/100)
    else current_threshold
  max (3/100) (min (3/10) new_threshold)

/-- The representative liquidity used by `update_threshold_based_on_performance`
to seed a missing row: `100000 if tier == 'high' else 50000 if 'medium' else
10000 if 'low' else 5000`. -/
def tier_seed_liquidity (liquidity_tier : String) : ℚ :=
  if liquidity_tier = "high" then 100000
  else if liquidity_tier = "medium" then 50000
  else if liquidity_tier = "low" then 10000
  else 5000

/-- `update_threshold_based_on_performance` (signal_analyzer.py): read the
(category, tier) row — seeding `base_threshold` from the tier's default when
absent — adjust and clamp its threshold by the observed accuracy, record that
accuracy, and `put_item` the row back. -/
def update_threshold_based_on_performance (store : ThresholdStore)
    (category liquidity_tier : String) (accuracy : ℚ) : ThresholdStore :=
  let current_threshold :=
    match store (category, liquidity_tier) with
    | some r => r.base_threshold
    | none => get_volatility_threshold (tier_seed_liquidity liquidity_tier)
  let new_threshold := adjust_threshold current_threshold accuracy
  fun k =>
    if k = (category, liquidity_tier) then
      some ⟨new_threshold, accuracy⟩
    else store k

/-! ### The detection pass (`detect_signals`, signal_analyzer.py) -/

/-- The external state a detection pass reads and writes: the thresholds table,
the signals table, and the counter standing in for fresh `uuid` signal ids. -/
structure AnalyzerState where
  thresholds : ThresholdStore
  signals : List SignalRec
  next_id : ℕ

/-- The body of `detect_signals` for one (market, time window) pair: skip
windows with under 3 points; compute volatility, momentum and the signal type;
when a type fires and `calculate_price_change` from the window's oldest price
meets the adaptive threshold, build the signal (strength band, per-category
historical accuracy averaged, confidence, predicted outcome), persist it, and
then call `update_threshold_based_on_performance` for each market category. -/
def analyze_window (market : Market) (window : ℕ) (historical_prices : List PricePoint)
    (st : AnalyzerState) : AnalyzerState :=
  if historical_prices.length < 3 then st
  else
    match historical_prices with
    | [] => st
    | p0 :: _ =>
      let volatility_sq := calculate_volatility_sq historical_prices
      let momentum := calculate_price_momentum historical_prices 3
      match determine_signal_type market.current_price historical_prices volatility_sq with
      | none => st
      | some signal_type =>
        let liquidity_tier := get_liquidity_tier market.liquidity
        let oldest_price := p0.price
        let price_change := calculate_price_change market.current_price oldest_price
        let threshold := get_adaptive_threshold st.thresholds market
        if threshold ≤ price_change then
          let strength := get_signal_strength_category price_change
          let historical_accuracy :=
            if market.categories.isEmpty then 1/2
            else (market.categories.map
              (fun c => get_historical_signal_accuracy st.signals c liquidity_tier)).sum /
              market.categories.length
          let confidence := calculate_confidence_score market price_change historical_accuracy
          let predicted_outcome := predict_outcome_from_signal signal_type market.current_price market
          let signal : SignalRec :=
            { market_id := market.id
              signal_id := st.next_id
              question := market.question
              signal_type := signal_type
              signal_strength := strength
              time_window := window
              current_price := market.current_price
              previous_price := oldest_price
              price_change := price_change
              volatility_sq := volatility_sq
              momentum := momentum
              threshold_used := threshold
              confidence_score := confidence
              liquidity := market.liquidity
              liquidity_tier := liquidity_tier
              categories := market.categories
              tracked_outcome := market.tracked_outcome
              predicted_outcome := predicted_outcome
              category := none
              actual_outcome := none
              was_correct := none
              resolution_date := none }
          let st1 : AnalyzerState :=
            { st with signals := st.signals ++ [signal], next_id := st.next_id + 1 }
          market.categories.foldl
            (fun s c =>
              { s with thresholds :=
                  (update_threshold_based_on_performance s.thresholds c liquidity_tier
                    historical_accuracy) })
            st1
        else st

/-- `detect_signals` for one market: markets with liquidity under $5000 are
skipped entirely; otherwise every fetched time window is analyzed in order. -/
def detect_market (market : Market) (st : AnalyzerState) : AnalyzerState :=
  if market.liquidity < 5000 then st
  else market.historyWindows.foldl (fun s w => analyze_window market w.1 w.2 s) st

/-- `detect_signals` (signal_analyzer.py): one detection pass over the market
list, threading the thresholds table, the signals table and the id counter. -/
def detect_signals (markets : List Market) (st : AnalyzerState) : AnalyzerState :=
  markets.foldl (fun s m => detect_market m s) st

/-! ### Resolution tracker (serverless/resolution_tracker/resolution_tracker.py) -/

/-- One resolved-market payload as fetched from the external API: its optional
explicit `resolution` field, its outcome labels, and their final prices.  The
keyword categorization of the free question text (`categorize_market`) is
embedded as the precomputed `categories` attribute. -/
structure ResolvedMarket where
  id : String
  question : String
  resolution : Option String
  outcomes : List String
  outcomePrices : List ℚ
  liquidity : ℚ
  volume : ℚ
  categories : List String
deriving DecidableEq, Repr

/-- One row of the resolutions table, keyed by market id, with the attributes
`save_resolution_to_dynamodb` writes; `put_item` on the key overwrites, so the
table holds one row per market id. -/
structure ResolutionRec where
  question : String
  resolution_outcome : String
  resolution_timestamp : ℚ
  outcome_prices : List (String × ℚ)
deriving DecidableEq, Repr

/-- The external state the resolution tracker reads and writes: the resolutions
table and the signals table. -/
structure ResolutionState where
  resolutions : String → Option ResolutionRec
  signals : List SignalRec

/-- `determine_resolution_outcome` (resolution_tracker.py): the explicit
`resolution` field when present; else for a Yes/No binary market, "Yes" when
the Yes price exceeds 0.95 and "No" when it is below 0.05 (an out-of-range
index raises and the handler returns "Unknown"); a binary market that decides
neither way falls through to the multi-outcome check: when some price exceeds
0.95 the first outcome holding the maximal price wins; else "Unknown". -/
def determine_resolution_outcome (market : ResolvedMarket) : String :=
  match market.resolution with
  | some r => r
  | none =>
    let outcomes := market.outcomes
    let prices := market.outcomePrices
    let binary_verdict : Option String :=
      if outcomes.length = 2 ∧ "Yes" ∈ outcomes ∧ "No" ∈ outcomes then
        match prices.get? (outcomes.indexOf "Yes") with
        | none => some "Unknown"
        | some yes_price =>
          if 95/100 < yes_price then some "Yes"
          else if yes_price < 5/100 then some "No"
          else none
      else none
    match binary_verdict with
    | some v => v
    | none =>
      if h : prices ≠ [] then
        let max_price := prices.foldr max (prices.head h)
        if 95/100 < max_price then
          match outcomes.get? (prices.indexOf max_price) with
          | some o => o
          | none => "Unknown"
        else "Unknown"
      else "Unknown"

/-- `evaluate_signal_accuracy` (resolution_tracker.py): a signal is correct
when its prediction equals the resolution outcome, or it is a PRICE_JUMP and
the outcome is "Yes", or a PRICE_DROP and the outcome is "No". -/
def evaluate_signal_accuracy (signal : SignalRec) (resolution_outcome : String) : Bool :=
  (signal.predicted_outcome == some resolution_outcome) ||
  (signal.signal_type == "PRICE_JUMP" && resolution_outcome == "Yes") ||
  (signal.signal_type == "PRICE_DROP" && resolution_outcome == "No")

/-- `update_signal_with_resolution` (resolution_tracker.py): `update_item` on
the (market_id, signal_id) key setting `actual_outcome`, `was_correct` and
`resolution_date`. -/
def update_signal_with_resolution (signals : List SignalRec)
    (market_id : String) (signal_id : ℕ) (resolution_outcome : String)
    (was_correct : Bool) (now : ℚ) : List SignalRec :=
  signals.map (fun s =>
    if s.market_id = market_id ∧ s.signal_id = signal_id then
      { s with actual_outcome := some resolution_outcome
               was_correct := some was_correct
               resolution_date := some now }
    else s)

/-- `save_resolution_to_dynamodb` (resolution_tracker.py): build the resolution
row (outcome-to-price map zipped from the payload) and `put_item` it under the
market id. -/
def save_resolution_to_dynamodb (st : ResolutionState) (market : ResolvedMarket)
    (resolution_outcome : String) (now : ℚ) : ResolutionState :=
  let rec_ : ResolutionRec :=
    { question := market.question
      resolution_outcome := resolution_outcome
      resolution_timestamp := now
      outcome_prices := market.outcomes.zip market.outcomePrices }
  { st with resolutions := fun k => if k = market.id then some rec_ else st.resolutions k }

/-- One iteration of the `process_resolved_markets` loop: skip the market when
its id already has a resolution row; determine the outcome and skip on
"Unknown"; else persist the resolution and update every signal of that market
with its correctness verdict. -/
def process_resolved_market (now : ℚ) (market : ResolvedMarket)
    (st : ResolutionState) : ResolutionState :=
  match st.resolutions market.id with
  | some _ => st
  | none =>
    let resolution_outcome := determine_resolution_outcome market
    if resolution_outcome = "Unknown" then st
    else
      let st1 := save_resolution_to_dynamodb st market resolution_outcome now
      let market_signals := st1.signals.filter (fun s => s.market_id == market.id)
      market_signals.foldl
        (fun s sig =>
          { s with signals :=
              (update_signal_with_resolution s.signals sig.market_id sig.signal_id
                resolution_outcome (evaluate_signal_accuracy sig resolution_outcome) now) })
        st1

/-- `process_resolved_markets` (resolution_tracker.py): fold the per-market
processing over the fetched resolved markets. -/
def process_resolved_markets (markets : List ResolvedMarket) (now : ℚ)
    (st : ResolutionState) : ResolutionState :=
  markets.foldl (fun s m => process_resolved_market now m s) st

/-! ### Publisher (serverless/publisher/publisher.py) -/

/-- One market update delivered to the publisher through SNS. -/
structure MarketUpdate where
  id : String
  question : String
  slug : String
  current_price : ℚ
  previous_price : ℚ
  price_change : ℚ
  tracked_outcome : String
  confidence_score : ℚ
  has_signals : Bool
deriving DecidableEq, Repr

/-- The stream of tweets emitted by a sequence of publisher invocations, each
given as (invocation time in seconds, market updates of its SNS event).
`lambda_handler` (publisher.py) iterates the updates and `post_to_twitter`
creates a tweet exactly for index 0, so an invocation with a nonempty update
list tweets once, at its invocation time; no code path reads the posts table,
the time since the last post, `MIN_POST_INTERVAL` or `MAX_POSTS_PER_DAY`
before tweeting. -/
def publisher_alert_times (invocations : List (ℚ × List MarketUpdate)) : List ℚ :=
  invocations.filterMap (fun inv => if inv.2.isEmpty then none else some inv.1)

/-! ### Specification-side definitions and fixtures used by the theorems -/

/-- The momentum formula as the claim words it: the mean over all windows of
`window_size` CONSECUTIVE POINTS (so endpoints `window_size - 1` indices
apart) of the price-change fraction between the window's endpoints divided by
the elapsed hours, 0 when fewer than `window_size` points exist.  Stated from
the claim's words, for comparison against `calculate_price_momentum`. -/
def momentum_claimed (prices : List PricePoint) (window_size : ℕ) : ℚ :=
  if prices.length < window_size then 0
  else
    let terms := (prices.zip (prices.drop (window_size - 1))).map
      (fun p => ((p.2.price - p.1.price) / p.1.price) / (p.2.ts - p.1.ts))
    if terms.isEmpty then 0 else terms.sum / terms.length

/-- The momentum formula the code actually computes, worded as a specification:
pair every point with the point `window_size` indices later, keep the pairs
with positive elapsed time and positive start price, and average their
per-hour relative changes; 0 when fewer than `window_size` points exist or no
valid pair remains. -/
def momentum_spec (prices : List PricePoint) (window_size : ℕ) : ℚ :=
  let terms := (prices.zip (prices.drop window_size)).filterMap
    (fun p => momentum_rate p.1 p.2)
  if prices.length < window_size ∨ terms.isEmpty then 0
  else terms.sum / terms.length

/-- Every record of a threshold store has its `base_threshold` inside the
clamp interval [0.03, 0.30]. -/
def threshold_store_in_range (store : ThresholdStore) : Prop :=
  ∀ k r, store k = some r → 3/100 ≤ r.base_threshold ∧ r.base_threshold ≤ 3/10

/-- The empty thresholds table. -/
def emptyThresholds : ThresholdStore := fun _ => none

/-- Fixture: a three-point 6-hour price history rising 0.40 → 0.41 → 0.58. -/
def sampleHistory : List PricePoint := [⟨0, 40/100⟩, ⟨3, 41/100⟩, ⟨6, 58/100⟩]

/-- Fixture: a Crypto market with $600k liquidity whose 6-hour window holds
`sampleHistory` and whose current price is 0.58. -/
def sampleMarket : Market :=
  { id := "m1"
    question := "q"
    current_price := 58/100
    tracked_outcome := some "Yes"
    liquidity := 600000
    volume24hr := 0
    categories := ["Crypto"]
    days_to_resolution := none
    historyWindows := [(6, sampleHistory)] }

/-- Fixture: a market shaped like `sampleMarket` but with the given liquidity
and no category rows relevant to it. -/
def marketWithLiquidity (liq : ℚ) : Market :=
  { sampleMarket with liquidity := liq }

/-- Fixture: the initial analyzer state with empty tables. -/
def initialAnalyzerState : AnalyzerState :=
  { thresholds := emptyThresholds, signals := [], next_id := 0 }

/-- Fixture: three points in which the price visibly moves; exactly
`window_size = 3` points. -/
def threePointSeries : List PricePoint := [⟨0, 1/10⟩, ⟨1, 2/10⟩, ⟨2, 9/10⟩]

/-- Fixture: one market update for the publisher. -/
def sampleUpdate : MarketUpdate :=
  { id := "m1"
    question := "q"
    slug := "m1"
    current_price := 58/100
    previous_price := 40/100
    price_change := 45/100
    tracked_outcome := "Yes"
    confidence_score := 1/2
    has_signals := true }

/-- Fixture: 101 publisher invocations 60 seconds apart, each delivering one
market update. -/
def denseInvocationStream : List (ℚ × List MarketUpdate) :=
  (List.range 101).map (fun i => ((i : ℚ) * 60, [sampleUpdate]))

/-- Fixture: a resolved binary market whose Yes price finished at 0.99. -/
def sampleResolvedMarket : ResolvedMarket :=
  { id := "m1"
    question := "q"
    resolution := none
    outcomes := ["Yes", "No"]
    outcomePrices := [99/100, 1/100]
    liquidity := 600000
    volume := 0
    categories := ["Crypto"] }

/-- Fixture: a resolution state that already holds a resolution row for
market `m1` and one unresolved signal on it. -/
def preResolvedState : ResolutionState :=
  { resolutions := fun k =>
      if k = "m1" then
        some { question := "q"
               resolution_outcome := "Yes"
               resolution_timestamp := 0
               outcome_prices := [("Yes", 99/100), ("No", 1/100)] }
      else none
    signals := [] }

/-! ### Theorems -/

/-- Helper: closed-form characterization of the strength-band scan. -/
theorem get_signal_strength_category_eq (pc : ℚ) :
    get_signal_strength_category pc =
      if 3/100 ≤ pc ∧ pc < 8/100 then "WEAK"
      else if 8/100 ≤ pc ∧ pc < 15/100 then "MODERATE"
      else if 15/100 ≤ pc ∧ pc < 25/100 then "STRONG"
      else if 25/100 ≤ pc ∧ pc < 1 then "VERY_STRONG"
      else "VERY_STRONG" := by
  unfold get_signal_strength_category SIGNAL_STRENGTH
  by_cases h1 : 3/100 ≤ pc ∧ pc < 8/100
  · rw [if_pos h1, List.find?_cons_of_pos _
      (by simp only [Bool.and_eq_true, decide_eq_true_eq]; exact h1)]
  · rw [if_neg h1, List.find?_cons_of_neg _
      (by simp only [Bool.and_eq_true, decide_eq_true_eq]; exact h1)]
    by_cases h2 : 8/100 ≤ pc ∧ pc < 15/100
    · rw [if_pos h2, List.find?_cons_of_pos _
        (by simp only [Bool.and_eq_true, decide_eq_true_eq]; exact h2)]
    · rw [if_neg h2, List.find?_cons_of_neg _
        (by simp only [Bool.and_eq_true, decide_eq_true_eq]; exact h2)]
      by_cases h3 : 15/100 ≤ pc ∧ pc < 25/100
      · rw [if_pos h3, List.find?_cons_of_pos _
          (by simp only [Bool.and_eq_true, decide_eq_true_eq]; exact h3)]
      · rw [if_neg h3, List.find?_cons_of_neg _
          (by simp only [Bool.and_eq_true, decide_eq_true_eq]; exact h3)]
        by_cases h4 : 25/100 ≤ pc ∧ pc < 1
        · rw [if_pos h4, List.find?_cons_of_pos _
            (by simp only [Bool.and_eq_true, decide_eq_true_eq]; exact h4)]
        · rw [if_neg h4, List.find?_cons_of_neg _
            (by simp only [Bool.and_eq_true, decide_eq_true_eq]; exact h4)]
          rfl

/-- C7: the strength bands are four disjoint half-open intervals with
inclusive lower bounds — [0.03, 0.08) ↦ WEAK, [0.08, 0.15) ↦ MODERATE,
[0.15, 0.25) ↦ STRONG, and everything from 0.25 up ↦ VERY_STRONG; in
particular a change of 0.10 is MODERATE and a change of 0.15 is STRONG. -/
theorem c7_strength_bands (pc : ℚ) :
    (3/100 ≤ pc → pc < 8/100 → get_signal_strength_category pc = "WEAK") ∧
    (8/100 ≤ pc → pc < 15/100 → get_signal_strength_category pc = "MODERATE") ∧
    (15/100 ≤ pc → pc < 25/100 → get_signal_strength_category pc = "STRONG") ∧
    (25/100 ≤ pc → get_signal_strength_category pc = "VERY_STRONG") ∧
    get_signal_strength_category (10/100) = "MODERATE" ∧
    get_signal_strength_category (15/100) = "STRONG" := by
  refine ⟨?_, ?_, ?_, ?_,
    by rw [get_signal_strength_category_eq]; norm_num,
    by rw [get_signal_strength_category_eq]; norm_num⟩
  · intro ha hb
    rw [get_signal_strength_category_eq, if_pos ⟨ha, hb⟩]
  · intro ha hb
    rw [get_signal_strength_category_eq,
      if_neg (by rintro ⟨-, h⟩; linarith), if_pos ⟨ha, hb⟩]
  · intro ha hb
    rw [get_signal_strength_category_eq,
      if_neg (by rintro ⟨-, h⟩; linarith),
      if_neg (by rintro ⟨-, h⟩; linarith), if_pos ⟨ha, hb⟩]
  · intro ha
    rw [get_signal_strength_category_eq,
      if_neg (by rintro ⟨-, h⟩; linarith),
      if_neg (by rintro ⟨-, h⟩; linarith),
      if_neg (by rintro ⟨-, h⟩; linarith), ite_self]

/-- C7 witness: the 0.10 band lookup through the universal theorem. -/
theorem c7_strength_bands_witness :
    get_signal_strength_category (10/100) = "MODERATE" :=
  (c7_strength_bands (10/100)).2.1 (by norm_num) (by norm_num)

/-- C10: any change that matches no configured band defaults to VERY_STRONG;
in particular changes below 0.03 (such as 0.01) and changes of 1.0 or more
are classified VERY_STRONG, as is everything from 0.25 up. -/
theorem c10_band_miss_defaults_very_strong (pc : ℚ) :
    ((∀ e ∈ SIGNAL_STRENGTH, ¬(e.2.1 ≤ pc ∧ pc < e.2.2)) →
      get_signal_strength_category pc = "VERY_STRONG") ∧
    (pc < 3/100 → get_signal_strength_category pc = "VERY_STRONG") ∧
    (1 ≤ pc → get_signal_strength_category pc = "VERY_STRONG") ∧
    (25/100 ≤ pc → get_signal_strength_category pc = "VERY_STRONG") ∧
    get_signal_strength_category (1/100) = "VERY_STRONG" := by
  refine ⟨?_, ?_, ?_, ?_,
    by rw [get_signal_strength_category_eq]; norm_num⟩
  · intro h
    unfold get_signal_strength_category
    rw [List.find?_eq_none.mpr (fun x hx => by
      simpa only [Bool.and_eq_true, decide_eq_true_eq] using h x hx)]
  · intro ha
    rw [get_signal_strength_category_eq,
      if_neg (by rintro ⟨h, -⟩; linarith),
      if_neg (by rintro ⟨h, -⟩; linarith),
      if_neg (by rintro ⟨h, -⟩; linarith),
      if_neg (by rintro ⟨h, -⟩; linarith)]
  · intro ha
    rw [get_signal_strength_category_eq,
      if_neg (by rintro ⟨-, h⟩; linarith),
      if_neg (by rintro ⟨-, h⟩; linarith),
      if_neg (by rintro ⟨-, h⟩; linarith),
      if_neg (by rintro ⟨-, h⟩; linarith)]
  · intro ha
    rw [get_signal_strength_category_eq,
      if_neg (by rintro ⟨-, h⟩; linarith),
      if_neg (by rintro ⟨-, h⟩; linarith),
      if_neg (by rintro ⟨-, h⟩; linarith), ite_self]

/-- C10 witness: the below-band input 0.01 through the universal theorem. -/
theorem c10_band_miss_witness :
    get_signal_strength_category (1/100) = "VERY_STRONG" :=
  (c10_band_miss_defaults_very_strong (1/100)).2.1 (by norm_num)

/-- C1: with minimum absolute change 0.05, significance is decided purely by
absolute change when the reference price is below 0.10, and by absolute change
OR relative change ≥ 0.15 otherwise, in which case the reported change is the
larger of the two; (r=0.04, c=0.09) is significant, (r=0.04, c=0.06) is not. -/
theorem c1_significant_change_rule (c r : ℚ) :
    (r < 10/100 →
      ((calculate_significant_price_change c r (5/100)).1 = true ↔ 5/100 ≤ |c - r|) ∧
      (calculate_significant_price_change c r (5/100)).2.1 = |c - r|) ∧
    (10/100 ≤ r →
      ((calculate_significant_price_change c r (5/100)).1 = true ↔
        5/100 ≤ |c - r| ∨ 15/100 ≤ |c - r| / r) ∧
      (calculate_significant_price_change c r (5/100)).2.1 = max |c - r| (|c - r| / r)) ∧
    (calculate_significant_price_change (9/100) (4/100) (5/100)).1 = true ∧
    (calculate_significant_price_change (6/100) (4/100) (5/100)).1 = false := by
  refine ⟨fun h => ?_, fun h => ?_, ?_, ?_⟩
  · simp only [calculate_significant_price_change, if_pos h]
    exact ⟨by simp, by simp⟩
  · simp only [calculate_significant_price_change, if_neg (not_lt.mpr h)]
    exact ⟨by simp, by simp⟩
  · simp only [calculate_significant_price_change]
    rw [if_pos (by norm_num)]
    simp only [decide_eq_true_eq]
    rw [show |(9:ℚ)/100 - 4/100| = 5/100 by rw [abs_of_nonneg] <;> norm_num]
  · simp only [calculate_significant_price_change]
    rw [if_pos (by norm_num)]
    simp only [decide_eq_false_iff_not, not_le]
    rw [show |(6:ℚ)/100 - 4/100| = 2/100 by rw [abs_of_nonneg] <;> norm_num]
    norm_num

/-- C1 witness: the absolute branch applied at reference 0.04, current 0.09. -/
theorem c1_significant_change_witness :
    ((calculate_significant_price_change (9/100) (4/100) (5/100)).1 = true ↔
      5/100 ≤ |(9:ℚ)/100 - 4/100|) :=
  ((c1_significant_change_rule (9/100) (4/100)).1 (by norm_num)).1

/-- Helper: one threshold adjustment always lands inside [0.03, 0.30]. -/
theorem adjust_threshold_bounds (t a : ℚ) :
    3/100 ≤ adjust_threshold t a ∧ adjust_threshold t a ≤ 3/10 := by
  unfold adjust_threshold
  exact ⟨le_max_left _ _, max_le (by norm_num) (min_le_left _ _)⟩

/-- Helper: one `update_threshold_based_on_performance` call preserves the
[0.03, 0.30] range invariant of the thresholds table. -/
theorem update_threshold_in_range (store : ThresholdStore) (c tr : String) (a : ℚ)
    (h : threshold_store_in_range store) :
    threshold_store_in_range (update_threshold_based_on_performance store c tr a) := by
  intro k r hk
  simp only [update_threshold_based_on_performance] at hk
  by_cases hkey : k = (c, tr)
  · rw [if_pos hkey] at hk
    injection hk with hk
    subst hk
    exact adjust_threshold_bounds _ _
  · rw [if_neg hkey] at hk
    exact h k r hk

/-- C4: one update multiplies the stored threshold by 1.1 when accuracy < 0.4,
by 0.95 when accuracy > 0.7, keeps it otherwise, and clamps the result to
[0.03, 0.30]; consequently every sequence of updates keeps all stored
thresholds inside [0.03, 0.30]. -/
theorem c4_threshold_update_clamped :
    (∀ t a : ℚ, adjust_threshold t a =
      max (3/100) (min (3/10)
        (if a < 4/10 then t * (11/10)
         else if 7/10 < a then t * (95/100) else t))) ∧
    (∀ t a : ℚ, 3/100 ≤ adjust_threshold t a ∧ adjust_threshold t a ≤ 3/10) ∧
    (∀ (store : ThresholdStore) (c tr : String) (a : ℚ) (r : ThresholdRec),
      store (c, tr) = some r →
      (update_threshold_based_on_performance store c tr a) (c, tr) =
        some ⟨adjust_threshold r.base_threshold a, a⟩) ∧
    (∀ (store : ThresholdStore) (updates : List (String × String × ℚ)),
      threshold_store_in_range store →
      threshold_store_in_range (updates.foldl
        (fun s u => update_threshold_based_on_performance s u.1 u.2.1 u.2.2) store)) := by
  refine ⟨fun t a => rfl, adjust_threshold_bounds, ?_, ?_⟩
  · intro store c tr a r h
    simp [update_threshold_based_on_performance, h]
  · intro store updates h
    induction updates generalizing store with
    | nil => simpa using h
    | cons u us ih =>
      simp only [List.foldl_cons]
      exact ih _ (update_threshold_in_range _ _ _ _ h)

/-- C4 witness: the clamp invariant holds after one concrete update sequence
starting from the empty table. -/
theorem c4_threshold_update_witness :
    threshold_store_in_range
      ([("Crypto", "high", (1/5 : ℚ))].foldl
        (fun s u => update_threshold_based_on_performance s u.1 u.2.1 u.2.2)
        emptyThresholds) :=
  c4_threshold_update_clamped.2.2.2 emptyThresholds _
    (fun k r h => by simp [emptyThresholds] at h)

/-- C6: for nonnegative liquidity, volume and price change and historical
accuracy in [0,1], the confidence score lies in [0,1]. -/
theorem c6_confidence_score_bounds (m : Market) (pc ha : ℚ)
    (hl : 0 ≤ m.liquidity) (hv : 0 ≤ m.volume24hr) (hp : 0 ≤ pc)
    (ha0 : 0 ≤ ha) (ha1 : ha ≤ 1) :
    0 ≤ calculate_confidence_score m pc ha ∧
      calculate_confidence_score m pc ha ≤ 1 := by
  have h1 : (0:ℚ) ≤ min (pc / (5/10)) 1 := le_min (by positivity) (by norm_num)
  have h2 : (0:ℚ) ≤ min (m.volume24hr / 1000000) 1 := le_min (by positivity) (by norm_num)
  have h3 : (0:ℚ) ≤ min (m.liquidity / 1000000) 1 := le_min (by positivity) (by norm_num)
  cases hd : m.days_to_resolution with
  | none =>
    simp only [calculate_confidence_score, hd]
    refine ⟨le_min (by linarith) (by norm_num), min_le_right _ _⟩
  | some d =>
    have h4 : (0:ℚ) ≤ max 0 (min 1 (1 - (d:ℚ)/30)) := le_max_left _ _
    simp only [calculate_confidence_score, hd]
    refine ⟨le_min (by linarith) (by norm_num), min_le_right _ _⟩

/-- C6 witness: the bounds at a zero-volume market with zero price change. -/
theorem c6_confidence_score_witness :
    0 ≤ calculate_confidence_score sampleMarket 0 (1/2) ∧
      calculate_confidence_score sampleMarket 0 (1/2) ≤ 1 :=
  c6_confidence_score_bounds sampleMarket 0 (1/2)
    (by norm_num [sampleMarket]) (by norm_num [sampleMarket]) (by norm_num)
    (by norm_num) (by norm_num)

/-- Helper: closed-form characterization of the liquidity-only fallback
table scan. -/
theorem get_volatility_threshold_eq (liq : ℚ) :
    get_volatility_threshold liq =
      if 1000000 ≤ liq then 5/100
      else if 500000 ≤ liq then 7/100
      else if 100000 ≤ liq then 10/100
      else if 50000 ≤ liq then 15/100
      else if 10000 ≤ liq then 20/100
      else 25/100 := by
  unfold get_volatility_threshold VOLATILITY_THRESHOLDS
  by_cases h1 : (1000000:ℚ) ≤ liq
  · rw [if_pos h1, List.find?_cons_of_pos _ (by simpa using h1)]
  · rw [if_neg h1, List.find?_cons_of_neg _ (by simpa using h1)]
    by_cases h2 : (500000:ℚ) ≤ liq
    · rw [if_pos h2, List.find?_cons_of_pos _ (by simpa using h2)]
    · rw [if_neg h2, List.find?_cons_of_neg _ (by simpa using h2)]
      by_cases h3 : (100000:ℚ) ≤ liq
      · rw [if_pos h3, List.find?_cons_of_pos _ (by simpa using h3)]
      · rw [if_neg h3, List.find?_cons_of_neg _ (by simpa using h3)]
        by_cases h4 : (50000:ℚ) ≤ liq
        · rw [if_pos h4, List.find?_cons_of_pos _ (by simpa using h4)]
        · rw [if_neg h4, List.find?_cons_of_neg _ (by simpa using h4)]
          by_cases h5 : (10000:ℚ) ≤ liq
          · rw [if_pos h5, List.find?_cons_of_pos _ (by simpa using h5)]
          · rw [if_neg h5, List.find?_cons_of_neg _ (by simpa using h5)]
            by_cases h6 : (0:ℚ) ≤ liq
            · rw [List.find?_cons_of_pos _ (by simpa using h6)]
            · rw [List.find?_cons_of_neg _ (by simpa using h6)]
              rfl

/-- C3 amended: with no threshold rows for the market's categories, the
classifier falls back to `get_volatility_threshold`, whose static
liquidity-only table is ≥$1M ↦ 0.05, [$500k,$1M) ↦ 0.07, [$100k,$500k) ↦ 0.10,
[$50k,$100k) ↦ 0.15, [$10k,$50k) ↦ 0.20 and below $10k ↦ 0.25 — while markets
below $5k liquidity are skipped by the detection pass entirely. -/
theorem c3_static_fallback_amended :
    (∀ (store : ThresholdStore) (m : Market),
      (∀ c ∈ m.categories, store (c, get_liquidity_tier m.liquidity) = none) →
      get_adaptive_threshold store m = get_volatility_threshold m.liquidity) ∧
    (∀ liq : ℚ, get_volatility_threshold liq =
      if 1000000 ≤ liq then 5/100
      else if 500000 ≤ liq then 7/100
      else if 100000 ≤ liq then 10/100
      else if 50000 ≤ liq then 15/100
      else if 10000 ≤ liq then 20/100
      else 25/100) ∧
    (∀ (m : Market) (st : AnalyzerState),
      m.liquidity < 5000 → detect_market m st = st) := by
  refine ⟨?_, get_volatility_threshold_eq, ?_⟩
  · intro store m hnone
    have hnil : m.categories.filterMap
        (fun c => (store (c, get_liquidity_tier m.liquidity)).map (·.base_threshold))
          = [] := by
      rw [List.filterMap_eq_nil_iff]
      intro c hc
      rw [hnone c hc]
      rfl
    simp only [get_adaptive_threshold, hnil]
    rfl
  · intro m st h
    unfold detect_market
    rw [if_pos h]

/-- C3 counterexample: with no threshold rows, a $5k-liquidity market falls
back to threshold 0.25 (the claim says 0.15) and a $100k-liquidity market to
0.10 (the claim says 0.08); a $500k market falls back to 0.07 (the claim
says 0.05). -/
theorem c3_static_fallback_counterexample :
    get_adaptive_threshold emptyThresholds (marketWithLiquidity 5000) = 25/100 ∧
    (25/100 : ℚ) ≠ 15/100 ∧
    get_adaptive_threshold emptyThresholds (marketWithLiquidity 100000) = 10/100 ∧
    (10/100 : ℚ) ≠ 8/100 ∧
    get_adaptive_threshold emptyThresholds (marketWithLiquidity 500000) = 7/100 ∧
    (7/100 : ℚ) ≠ 5/100 := by
  have key : ∀ liq : ℚ, get_adaptive_threshold emptyThresholds (marketWithLiquidity liq) =
      get_volatility_threshold liq := by
    intro liq
    have hnil : (marketWithLiquidity liq).categories.filterMap
        (fun c => (emptyThresholds
          (c, get_liquidity_tier (marketWithLiquidity liq).liquidity)).map
            (·.base_threshold)) = [] := by
      rw [List.filterMap_eq_nil_iff]
      intro c hc
      rfl
    simp only [get_adaptive_threshold, hnil]
    rfl
  rw [key, key, key, get_volatility_threshold_eq, get_volatility_threshold_eq,
    get_volatility_threshold_eq]
  norm_num

/-- C3 witness: the fallback equation applied to the sample market over the
empty thresholds table. -/
theorem c3_static_fallback_witness :
    get_adaptive_threshold emptyThresholds sampleMarket =
      get_volatility_threshold sampleMarket.liquidity :=
  c3_static_fallback_amended.1 emptyThresholds sampleMarket (fun c hc => rfl)

/-- Helper: zipping a list with its `w`-drop enumerates exactly the index
pairs `(i, i + w)` for `i < length - w`. -/
theorem zip_drop_eq_range_map (l : List PricePoint) (w : ℕ) :
    l.zip (l.drop w) = (List.range (l.length - w)).map
      (fun i => (l.getD i ⟨0, 0⟩, l.getD (i + w) ⟨0, 0⟩)) := by
  apply List.ext_getElem
  · simp only [List.length_zip, List.length_drop, List.length_map, List.length_range]
    omega
  · intro i h1 h2
    have hk : i < l.length - w := by
      simpa using h2
    have hi : i < l.length := by omega
    have hiw : i + w < l.length := by omega
    simp only [List.getElem_zip, List.getElem_map, List.getElem_range]
    rw [show i + w = w + i from Nat.add_comm i w, List.getD_eq_getElem _ _ hi,
      List.getD_eq_getElem _ _ (by omega : w + i < l.length)]
    rw [List.getElem_drop]

/-- Helper: the indexed momentum loop collects the same values as filtering
`momentum_rate` over the list zipped with its `w`-drop. -/
theorem momentum_values_eq_zip (l : List PricePoint) (w : ℕ) :
    (List.range (l.length - w)).filterMap (momentum_window l w)
      = (l.zip (l.drop w)).filterMap (fun p => momentum_rate p.1 p.2) := by
  rw [zip_drop_eq_range_map, List.filterMap_map]
  apply List.filterMap_congr
  intro i hi
  have hk : i < l.length - w := List.mem_range.mp hi
  have hi1 : i < l.length := by omega
  have hi2 : i + w < l.length := by omega
  simp only [momentum_window, Function.comp_apply,
    List.getElem?_eq_getElem hi1, List.getElem?_eq_getElem hi2,
    List.getD_eq_getElem _ _ hi1, List.getD_eq_getElem _ _ hi2]

/-- C8 amended: `calculate_price_momentum` equals the mean, over all pairs of
points whose indices are `window_size` apart (that is, windows of
`window_size + 1` consecutive points) that have positive elapsed time and
positive start price, of the price-change fraction between the pair divided by
the elapsed hours; it is 0 when fewer than `window_size` points exist, and
also 0 when no valid pair remains — in particular for a series of exactly
`window_size` points. -/
theorem c8_momentum_amended (prices : List PricePoint) (window_size : ℕ) :
    calculate_price_momentum prices window_size = momentum_spec prices window_size := by
  simp only [calculate_price_momentum, momentum_spec, momentum_values_eq_zip]
  split_ifs <;> first | rfl | tauto

/-- C8 counterexample: on a three-point series whose price visibly moves, the
code returns momentum 0 although the series does not have fewer than
`window_size = 3` points — and the claim's mean over windows of 3 consecutive
points is 4, not 0. -/
theorem c8_momentum_counterexample :
    calculate_price_momentum threePointSeries 3 = 0 ∧
    threePointSeries.length = 3 ∧
    momentum_claimed threePointSeries 3 = 4 := by
  refine ⟨?_, by simp [threePointSeries], ?_⟩
  · simp [calculate_price_momentum, threePointSeries, List.range_succ,
      momentum_window, momentum_rate]
  · simp only [momentum_claimed, threePointSeries]
    norm_num [List.zip]

/-- C9: the publisher enforces no alert spacing or daily cap — two invocations
60 seconds apart both emit (60 s < `MIN_POST_INTERVAL` = 900 s), and 101
invocations inside one rolling day emit 101 alerts (> `MAX_POSTS_PER_DAY` =
100); the configured limits are never consulted by any code path. -/
theorem c9_rate_gate_missing :
    publisher_alert_times [(0, [sampleUpdate]), (60, [sampleUpdate])] = [0, 60] ∧
    (60 : ℚ) - 0 < MIN_POST_INTERVAL ∧
    MAX_POSTS_PER_DAY < (publisher_alert_times denseInvocationStream).length ∧
    (publisher_alert_times denseInvocationStream).all
      (fun t => decide (0 ≤ t ∧ t < 86400)) = true := by
  have hstream : publisher_alert_times denseInvocationStream =
      (List.range 101).map (fun i : ℕ => (i : ℚ) * 60) := by
    unfold publisher_alert_times denseInvocationStream
    rw [List.filterMap_map]
    exact congrFun (List.filterMap_eq_map _) _
  refine ⟨by simp [publisher_alert_times], by norm_num [MIN_POST_INTERVAL], ?_, ?_⟩
  · rw [hstream]
    simp [MAX_POSTS_PER_DAY]
  · rw [hstream, List.all_eq_true]
    intro t ht
    simp only [List.mem_map, List.mem_range] at ht
    obtain ⟨i, hi, rfl⟩ := ht
    have hq : (i : ℚ) ≤ 100 := by exact_mod_cast Nat.le_of_lt_succ hi
    have hq0 : (0 : ℚ) ≤ (i : ℚ) := Nat.cast_nonneg i
    simp only [decide_eq_true_eq]
    constructor
    · nlinarith
    · nlinarith

/-- Helper: a threshold update under a different category leaves a key's row
unchanged. -/
theorem update_threshold_other_category (store : ThresholdStore)
    (cat tier c tr : String) (a : ℚ) (hc : c ≠ cat) :
    update_threshold_based_on_performance store cat tier a (c, tr) = store (c, tr) := by
  simp only [update_threshold_based_on_performance]
  exact if_neg (fun he => hc (congrArg Prod.fst he))

/-- Helper: the per-category threshold-update fold of `analyze_window` leaves
every key outside the market's categories unchanged. -/
theorem foldl_update_thresholds_other (cats : List String) (tier : String) (a : ℚ)
    (c tr : String) (hc : c ∉ cats) :
    ∀ s : AnalyzerState,
      ((cats.foldl
        (fun s cat =>
          { s with thresholds :=
              (update_threshold_based_on_performance s.thresholds cat tier a) }) s).thresholds
        (c, tr)) = s.thresholds (c, tr) := by
  induction cats with
  | nil => intro s; rfl
  | cons x xs ih =>
    intro s
    have hx : c ≠ x := fun h => hc (h ▸ List.mem_cons_self x xs)
    have hxs : c ∉ xs := fun h => hc (List.mem_cons_of_mem _ h)
    rw [List.foldl_cons, ih hxs]
    exact update_threshold_other_category _ _ _ _ _ _ hx

/-- Helper: analyzing one window never touches threshold rows outside the
market's categories. -/
theorem analyze_window_thresholds_other (m : Market) (w : ℕ) (hp : List PricePoint)
    (st : AnalyzerState) (c tr : String) (hc : c ∉ m.categories) :
    (analyze_window m w hp st).thresholds (c, tr) = st.thresholds (c, tr) := by
  simp only [analyze_window]
  split
  · rfl
  · split
    · rfl
    · split
      · rfl
      · split
        · exact foldl_update_thresholds_other _ _ _ _ _ hc _
        · rfl

/-- Helper: processing one market never touches threshold rows outside its
categories. -/
theorem detect_market_thresholds_other (m : Market) (st : AnalyzerState)
    (c tr : String) (hc : c ∉ m.categories) :
    (detect_market m st).thresholds (c, tr) = st.thresholds (c, tr) := by
  unfold detect_market
  split
  · rfl
  · have key : ∀ (hws : List (ℕ × List PricePoint)) (s : AnalyzerState),
        ((hws.foldl (fun s w => analyze_window m w.1 w.2 s) s).thresholds (c, tr))
          = s.thresholds (c, tr) := by
      intro hws
      induction hws with
      | nil => intro s; rfl
      | cons x xs ih =>
        intro s
        rw [List.foldl_cons, ih]
        exact analyze_window_thresholds_other _ _ _ _ _ _ hc
    exact key _ _

/-- C2 amended: a detection pass persists fired Signals and, in addition,
rewrites the ThresholdRecord of every (category of the market, market tier)
pair through `update_threshold_based_on_performance`; the frame that does
hold is that every threshold row whose category belongs to no processed
market is left exactly as it was. -/
theorem c2_detect_thresholds_frame (markets : List Market) (st : AnalyzerState)
    (c tr : String) (h : ∀ m ∈ markets, c ∉ m.categories) :
    (detect_signals markets st).thresholds (c, tr) = st.thresholds (c, tr) := by
  unfold detect_signals
  induction markets generalizing st with
  | nil => rfl
  | cons x xs ih =>
    rw [List.foldl_cons, ih _ (fun m hm => h m (List.mem_cons_of_mem _ hm))]
    exact detect_market_thresholds_other _ _ _ _ (h x (List.mem_cons_self x xs))

/-- C2 witness: the frame applied to a category no processed market carries. -/
theorem c2_detect_thresholds_frame_witness :
    (detect_signals [sampleMarket] initialAnalyzerState).thresholds ("Politics", "high")
      = initialAnalyzerState.thresholds ("Politics", "high") :=
  c2_detect_thresholds_frame [sampleMarket] initialAnalyzerState "Politics" "high"
    (by intro m hm; simp only [List.mem_singleton] at hm; subst hm; simp [sampleMarket])

set_option maxHeartbeats 2000000 in
/-- C2 counterexample: one detection pass over a single market that fires a
PRICE_JUMP signal creates the ("Crypto", "high") threshold row — the store
maps that key to `none` before the pass and to a record with threshold 0.10
and accuracy 0.5 after it. -/
theorem c2_threshold_mutation_counterexample :
    initialAnalyzerState.thresholds ("Crypto", "high") = none ∧
    (detect_signals [sampleMarket] initialAnalyzerState).thresholds ("Crypto", "high")
      = some ⟨1/10, 1/2⟩ := by
  refine ⟨rfl, ?_⟩
  norm_num [detect_signals, detect_market, analyze_window, sampleMarket, sampleHistory,
    abs_of_nonneg, max_def,
    initialAnalyzerState, emptyThresholds, get_liquidity_tier, LOW_LIQUIDITY_THRESHOLD,
    MEDIUM_LIQUIDITY_THRESHOLD, HIGH_LIQUIDITY_THRESHOLD, determine_signal_type,
    calculate_significant_price_change, calculate_price_change, get_adaptive_threshold,
    get_volatility_threshold_eq, get_historical_signal_accuracy,
    update_threshold_based_on_performance, adjust_threshold, tier_seed_liquidity,
    calculate_volatility_sq, price_changes, calculate_price_momentum, momentum_window,
    calculate_confidence_score, predict_outcome_from_signal,
    get_signal_strength_category_eq, pairwise_le, pairwise_ge,
    Bool.or_eq_true, Bool.and_eq_true, decide_eq_true_eq]

/-- Helper: a market whose id already has a resolution row is skipped — the
whole iteration is the identity on the state. -/
theorem process_resolved_market_skip (now : ℚ) (m : ResolvedMarket)
    (st : ResolutionState) (h : (st.resolutions m.id).isSome) :
    process_resolved_market now m st = st := by
  obtain ⟨r, hr⟩ := Option.isSome_iff_exists.mp h
  unfold process_resolved_market
  rw [hr]

/-- Helper: a market with an undeterminable outcome is skipped. -/
theorem process_resolved_market_unknown (now : ℚ) (m : ResolvedMarket)
    (st : ResolutionState) (h0 : st.resolutions m.id = none)
    (h : determine_resolution_outcome m = "Unknown") :
    process_resolved_market now m st = st := by
  unfold process_resolved_market
  rw [h0]
  simp [h]

/-- Helper: the signal-update fold of the resolution tracker never touches the
resolutions table. -/
theorem foldl_update_signals_resolutions (sigs : List SignalRec) (ro : String)
    (now : ℚ) :
    ∀ s : ResolutionState,
      ((sigs.foldl (fun s sig =>
        { s with signals :=
            (update_signal_with_resolution s.signals sig.market_id sig.signal_id ro
              (evaluate_signal_accuracy sig ro) now) }) s).resolutions) = s.resolutions := by
  induction sigs with
  | nil => intro s; rfl
  | cons x xs ih =>
    intro s
    rw [List.foldl_cons, ih]

/-- Helper: one resolution-tracker iteration never deletes a resolution row. -/
theorem process_resolved_market_mono (now : ℚ) (m : ResolvedMarket)
    (st : ResolutionState) (id0 : String) (h : (st.resolutions id0).isSome) :
    ((process_resolved_market now m st).resolutions id0).isSome := by
  unfold process_resolved_market
  cases hr : st.resolutions m.id with
  | some r => exact h
  | none =>
    by_cases hu : determine_resolution_outcome m = "Unknown"
    · simp [hu]
      exact h
    · simp only [if_neg hu, foldl_update_signals_resolutions,
        save_resolution_to_dynamodb]
      by_cases hid : id0 = m.id
      · simp [hid]
      · simp only [if_neg hid]
        exact h

/-- Helper: after one iteration the market's own id is resolved, unless its
outcome is Unknown. -/
theorem process_resolved_market_self (now : ℚ) (m : ResolvedMarket)
    (st : ResolutionState) :
    ((process_resolved_market now m st).resolutions m.id).isSome ∨
      determine_resolution_outcome m = "Unknown" := by
  unfold process_resolved_market
  cases hr : st.resolutions m.id with
  | some r => left; simp [hr]
  | none =>
    by_cases hu : determine_resolution_outcome m = "Unknown"
    · right; exact hu
    · left
      simp only [if_neg hu, foldl_update_signals_resolutions,
        save_resolution_to_dynamodb]
      simp

/-- Helper: one iteration is the identity when the market is already resolved
or its outcome is Unknown. -/
theorem process_resolved_market_noop (now : ℚ) (m : ResolvedMarket)
    (st : ResolutionState)
    (h : (st.resolutions m.id).isSome ∨ determine_resolution_outcome m = "Unknown") :
    process_resolved_market now m st = st := by
  cases hr : st.resolutions m.id with
  | some r => exact process_resolved_market_skip now m st (by simp [hr])
  | none =>
    rcases h with h | h
    · rw [hr] at h
      simp at h
    · exact process_resolved_market_unknown now m st hr h

/-- Helper: a whole run never deletes a resolution row. -/
theorem process_resolved_markets_mono (ms : List ResolvedMarket) (now : ℚ)
    (id0 : String) :
    ∀ st : ResolutionState, (st.resolutions id0).isSome →
      (((process_resolved_markets ms now st).resolutions id0).isSome) := by
  unfold process_resolved_markets
  induction ms with
  | nil => intro st h; exact h
  | cons x xs ih =>
    intro st h
    rw [List.foldl_cons]
    exact ih _ (process_resolved_market_mono now x st id0 h)

/-- Helper: after a full run, every processed market either has a resolution
row or has an Unknown outcome. -/
theorem process_resolved_markets_covers (ms : List ResolvedMarket) (now : ℚ) :
    ∀ (st : ResolutionState), ∀ m ∈ ms,
      (((process_resolved_markets ms now st).resolutions m.id).isSome ∨
        determine_resolution_outcome m = "Unknown") := by
  induction ms with
  | nil => intro st m hm; cases hm
  | cons x xs ih =>
    intro st m hm
    rcases List.mem_cons.mp hm with rfl | hm'
    · rcases process_resolved_market_self now m st with h | h
      · left
        unfold process_resolved_markets
        rw [List.foldl_cons]
        exact process_resolved_markets_mono xs now m.id _ h
      · right; exact h
    · have : process_resolved_markets (x :: xs) now st =
          process_resolved_markets xs now (process_resolved_market now x st) := by
        unfold process_resolved_markets
        rw [List.foldl_cons]
      rw [this]
      exact ih (process_resolved_market now x st) m hm'

/-- C5: a market whose id already has a Resolution record is skipped without
writing a Resolution or touching any Signal (the iteration is the identity on
the whole state), and a second run of `process_resolved_markets` over the same
market list leaves the state exactly as the first run left it; the resolutions
table is keyed by market id, so at most one record per market exists. -/
theorem c5_resolution_idempotent :
    (∀ (now : ℚ) (m : ResolvedMarket) (st : ResolutionState),
      (st.resolutions m.id).isSome → process_resolved_market now m st = st) ∧
    (∀ (ms : List ResolvedMarket) (now1 now2 : ℚ) (st : ResolutionState),
      process_resolved_markets ms now2 (process_resolved_markets ms now1 st) =
        process_resolved_markets ms now1 st) := by
  refine ⟨process_resolved_market_skip, ?_⟩
  intro ms now1 now2 st
  have key : ∀ (ms2 : List ResolvedMarket) (s : ResolutionState),
      (∀ m ∈ ms2, (s.resolutions m.id).isSome ∨
        determine_resolution_outcome m = "Unknown") →
      process_resolved_markets ms2 now2 s = s := by
    intro ms2
    induction ms2 with
    | nil => intro s _; rfl
    | cons x xs ih =>
      intro s hs
      unfold process_resolved_markets
      rw [List.foldl_cons,
        process_resolved_market_noop now2 x s (hs x (List.mem_cons_self x xs))]
      exact ih s (fun m hm => hs m (List.mem_cons_of_mem _ hm))
  exact key ms _ (process_resolved_markets_covers ms now1 st)

/-- C5 witness: processing a market whose id is already resolved leaves the
concrete pre-resolved state untouched. -/
theorem c5_resolution_idempotent_witness :
    process_resolved_market 1 sampleResolvedMarket preResolvedState =
      preResolvedState :=
  c5_resolution_idempotent.1 1 sampleResolvedMarket preResolvedState
    (by simp [preResolvedState, sampleResolvedMarket])

end PolymarketWatcher
